import Mathlib

/-!
Verification of the AIS NMEA decoding library against its specification.

Lines of input are modelled as lists of bytes (`List Nat`); all inputs of
interest are ASCII, where Rust's byte-level string operations (`len`,
`split`, `split_at`, `as_bytes`) coincide with this model.

The tag-block embedding follows `src/messages/tag_block.rs`; the one-shot
`decode` embedding follows `src/decoders/utils.rs`.  The sentence parser
(`AisParser::parse`), payload expansion and the position-report field
decoder are not part of the repository sources and are modelled from the
specification (sections 4.2-4.5), as marked on each definition.
-/

deriving instance DecidableEq for Except

namespace Ais

/-- Bytes of an ASCII string literal (all inputs used are ASCII). -/
def strBytes (s : String) : List Nat := s.data.map Char.toNat

/-! ## Tag block (from src/messages/tag_block.rs) -/

/-- Embeds Rust `input.trim_matches('\\')`: removes all leading and trailing
backslash (byte 92) characters. -/
def trimBackslashes (bs : List Nat) : List Nat :=
  ((bs.dropWhile (· == 92)).reverse.dropWhile (· == 92)).reverse

/-- Embeds Rust `str::split(sep)` on bytes: splitting `"a*b"` on `*` gives
`["a", "b"]`, the empty string gives `[""]`, adjacent separators give empty
pieces. -/
def splitSep (sep : Nat) : List Nat → List (List Nat)
  | [] => [[]]
  | b :: rest =>
    if b = sep then [] :: splitSep sep rest
    else
      match splitSep sep rest with
      | h :: t => (b :: h) :: t
      | [] => [[b]]

/-- Value of one hexadecimal digit byte (`0-9`, `a-f`, `A-F`). -/
def hexVal (b : Nat) : Option Nat :=
  if 48 ≤ b ∧ b ≤ 57 then some (b - 48)
  else if 97 ≤ b ∧ b ≤ 102 then some (b - 87)
  else if 65 ≤ b ∧ b ≤ 70 then some (b - 55)
  else none

/-- Fold a nonempty list of hex-digit bytes into a number; `none` if the
list is empty or any byte is not a hex digit. -/
def hexDigitsVal (bs : List Nat) : Option Nat :=
  match bs with
  | [] => none
  | _ =>
    bs.foldl
      (fun acc b =>
        match acc, hexVal b with
        | some a, some d => some (16 * a + d)
        | _, _ => none)
      (some 0)

/-- Embeds Rust `u8::from_str_radix(s, 16)`: an optional leading `+` sign
followed by one or more hex digits; a leading `-` is not accepted for an
unsigned type (it fails as an invalid digit); values over 255 overflow. -/
def u8FromStrRadix16 (bs : List Nat) : Option Nat :=
  let digits := match bs with
    | 43 :: rest => rest
    | _ => bs
  match hexDigitsVal digits with
  | some v => if v ≤ 255 then some v else none
  | none => none

/-- Embeds `calculate_checksum`: XOR-fold of all bytes, starting from 0. -/
def xorFold (bs : List Nat) : Nat := bs.foldl Nat.xor 0

/-- Value of one decimal digit byte. -/
def decVal (b : Nat) : Option Nat :=
  if 48 ≤ b ∧ b ≤ 57 then some (b - 48) else none

/-- Fold a nonempty list of decimal-digit bytes into a number. -/
def decDigitsVal (bs : List Nat) : Option Nat :=
  match bs with
  | [] => none
  | _ =>
    bs.foldl
      (fun acc b =>
        match acc, decVal b with
        | some a, some d => some (10 * a + d)
        | _, _ => none)
      (some 0)

/-- Embeds Rust `str::parse::<uN>()` (decimal): optional leading `+`, one
or more decimal digits, value at most `max`. -/
def parseUInt (max : Nat) (bs : List Nat) : Option Nat :=
  let digits := match bs with
    | 43 :: rest => rest
    | _ => bs
  match decDigitsVal digits with
  | some v => if v ≤ max then some v else none
  | none => none

def u64Max : Nat := 2 ^ 64 - 1

def u32Max : Nat := 2 ^ 32 - 1

/-- The `TagBlock` struct.  Station identifiers and free text are kept as
byte lists. -/
structure TagBlock where
  receiver_timestamp : Option Nat
  destination_station : Option (List Nat)
  line_count : Option Nat
  relative_time : Option Nat
  source_station : Option (List Nat)
  text : Option (List Nat)
  checksum : Nat
deriving DecidableEq

/-- The three error shapes of `TagBlock::parse` (the Rust code formats
these as strings; the checksum-mismatch diagnostic carries both the
calculated and the declared value). -/
inductive TagBlockError where
  | invalidFormat
  | invalidChecksumFormat
  | checksumMismatch (calculated provided : Nat)
deriving DecidableEq

/-- Embeds one iteration of the key-value loop of `TagBlock::parse`:
tokens shorter than 3 bytes are skipped, otherwise the first two bytes
select the field (`c:` 99 58, `d:` 100 58, `n:` 110 58, `r:` 114 58,
`s:` 115 58, `t:` 116 58); unknown keys are ignored. -/
def processKV (tb : TagBlock) (kv : List Nat) : TagBlock :=
  if kv.length < 3 then tb
  else
    let key := kv.take 2
    let value := kv.drop 2
    if key = [99, 58] then { tb with receiver_timestamp := parseUInt u64Max value }
    else if key = [100, 58] then { tb with destination_station := some value }
    else if key = [110, 58] then { tb with line_count := parseUInt u32Max value }
    else if key = [114, 58] then { tb with relative_time := parseUInt u32Max value }
    else if key = [115, 58] then { tb with source_station := some value }
    else if key = [116, 58] then { tb with text := some value }
    else tb

/-- The all-`None` tag block holding `provided` as its checksum byte, the
accumulator the key-value loop starts from. -/
def initTagBlock (provided : Nat) : TagBlock :=
  { receiver_timestamp := none, destination_station := none, line_count := none
    relative_time := none, source_station := none, text := none, checksum := provided }

/-- Embeds `TagBlock::parse`: trim backslashes, split on `*` (byte 42)
requiring exactly two parts, require a 2-byte checksum field parsed in
base 16, compare the XOR-fold of the key-value part against it, then fold
the comma-separated (byte 44) key-value tokens. -/
def TagBlock.parse (input : List Nat) : Except TagBlockError (Option TagBlock) :=
  match splitSep 42 (trimBackslashes input) with
  | [key_value_part, checksum_str] =>
    if checksum_str.length ≠ 2 then .error .invalidChecksumFormat
    else
      match u8FromStrRadix16 checksum_str with
      | none => .error .invalidChecksumFormat
      | some provided =>
        if xorFold key_value_part ≠ provided then
          .error (.checksumMismatch (xorFold key_value_part) provided)
        else
          .ok (some ((splitSep 44 key_value_part).foldl processKV (initTagBlock provided)))
  | _ => .error .invalidFormat

/-- True exactly when the parse result is the checksum-mismatch error. -/
def isChecksumMismatch : Except TagBlockError (Option TagBlock) → Bool
  | .error (.checksumMismatch _ _) => true
  | _ => false

/-- The six recognized two-byte tag keys. -/
def recognizedTagKeys : List (List Nat) :=
  [[99, 58], [100, 58], [110, 58], [114, 58], [115, 58], [116, 58]]

/-! ## IEEE-754 binary32 value model

The position-report decoder produces `f32` values.  An `f32` value is
modelled exactly, as a signed mantissa `man` (0, or of magnitude in
`[2^23, 2^24)`) and an exponent `ex` denoting `man * 2 ^ (ex - 23)`; this
canonical form makes value equality structural.  Each arithmetic step is
the correctly rounded (round-to-nearest, ties-to-even) result, which is
what IEEE-754 prescribes for `as f32` conversion and for division.  All
values involved are normal and far from overflow, so neither subnormals
nor infinities are modelled. -/

/-- An IEEE-754 binary32 value in canonical form: `man * 2 ^ (ex - 23)`
with `man = 0` (then `ex = 0`) or `2^23 ≤ |man| < 2^24`. -/
structure F32 where
  man : ℤ
  ex : ℤ
deriving DecidableEq

/-- Fuel-driven base-2 logarithm (`natLog2 n = ⌊log2 n⌋` for `n ≥ 1`),
written structurally so that it evaluates by kernel reduction. -/
def natLog2Aux : Nat → Nat → Nat
  | 0, _ => 0
  | fuel + 1, n => if n ≤ 1 then 0 else natLog2Aux fuel (n / 2) + 1

def natLog2 (n : Nat) : Nat := natLog2Aux n n

/-- Decides `a / d < 2 ^ g` over naturals (`d > 0`). -/
def ltPow2 (a d : ℕ) (g : ℤ) : Bool :=
  if 0 ≤ g then a < 2 ^ g.toNat * d else a * 2 ^ (-g).toNat < d

/-- Floor of the base-2 logarithm of the positive fraction `a / d`: the
unique `e` with `2 ^ e ≤ a / d < 2 ^ (e + 1)`. -/
def floorLog2Frac (a d : ℕ) : ℤ :=
  let g : ℤ := (natLog2 a : ℤ) - (natLog2 d : ℤ)
  if ltPow2 a d g then g - 1 else g

/-- Round `num / den` (with `den > 0`) to the nearest natural, ties to
even. -/
def roundNearestEven (num den : ℕ) : ℕ :=
  let q := num / den
  let r := num % den
  if 2 * r < den then q
  else if den < 2 * r then q + 1
  else if q % 2 = 0 then q else q + 1

/-- Nearest binary32 value of the exact fraction `n / d` (`d > 0`):
round to 24 significant bits, renormalizing when rounding carries into
the next binade. -/
def toF32Frac (n : ℤ) (d : ℕ) : F32 :=
  if n = 0 then ⟨0, 0⟩
  else
    let a := n.natAbs
    let e := floorLog2Frac a d
    let k := 23 - e
    let num := if 0 ≤ k then a * 2 ^ k.toNat else a
    let den := if 0 ≤ k then d else d * 2 ^ (-k).toNat
    let m0 := roundNearestEven num den
    let m := if m0 = 2 ^ 24 then 2 ^ 23 else m0
    let ex := if m0 = 2 ^ 24 then e + 1 else e
    if 0 ≤ n then ⟨(m : ℤ), ex⟩ else ⟨-(m : ℤ), ex⟩

/-- An integer converted to `f32` (`as f32` in Rust): rounded to the
nearest representable value. -/
def intToF32 (n : ℤ) : F32 := toF32Frac n 1

/-- Correctly rounded division of an `f32` value by a positive integer
constant that is itself exactly representable in `f32` (here 10 and
600000), as the scaling steps of the decoder perform it. -/
def F32.divNat (x : F32) (c : ℕ) : F32 :=
  if 0 ≤ x.ex - 23 then toF32Frac (x.man * 2 ^ (x.ex - 23).toNat) c
  else toF32Frac x.man (c * 2 ^ (23 - x.ex).toNat)

/-! ## Spec-modelled sentence decoding

`AisParser::parse` and everything below it (sentence framing, fragment
handling, payload expansion, message dispatch, the position-report field
decoder) are part of the `ais` crate but not of this repository's
sources; only `decode` in `src/decoders/utils.rs` and its tests refer to
them.  They are modelled here from the specification. -/

/-- Modelled from the spec: the `NavigationStatus` enumeration, codes
0-15 per the AIS standard, unrecognized codes falling back to the
not-defined variant. -/
inductive NavigationStatus where
  | underWayUsingEngine
  | atAnchor
  | notUnderCommand
  | restrictedManoeuverability
  | constrainedByDraught
  | moored
  | aground
  | engagedInFishing
  | underWaySailing
  | reservedForHsc
  | reservedForWig
  | powerDrivenVesselTowingAstern
  | powerDrivenVesselPushingAhead
  | reservedForFutureUse
  | aisSartIsActive
  | notDefined
deriving DecidableEq

/-- Modelled from the spec: mapping of the 4-bit navigation-status code. -/
def NavigationStatus.ofCode (c : Nat) : NavigationStatus :=
  match c with
  | 0 => .underWayUsingEngine
  | 1 => .atAnchor
  | 2 => .notUnderCommand
  | 3 => .restrictedManoeuverability
  | 4 => .constrainedByDraught
  | 5 => .moored
  | 6 => .aground
  | 7 => .engagedInFishing
  | 8 => .underWaySailing
  | 9 => .reservedForHsc
  | 10 => .reservedForWig
  | 11 => .powerDrivenVesselTowingAstern
  | 12 => .powerDrivenVesselPushingAhead
  | 13 => .reservedForFutureUse
  | 14 => .aisSartIsActive
  | _ => .notDefined

/-- Modelled from the spec: the Position Report record (message types
1-3) with its typed, scaled fields; scaled fields are `f32` values
modelled as exact rationals, absent when the raw field holds the
standard's "not available" sentinel. -/
structure PositionReport where
  message_type : Nat
  mmsi : Nat
  navigation_status : Option NavigationStatus
  speed_over_ground : Option F32
  longitude : Option F32
  latitude : Option F32
  course_over_ground : Option F32
  timestamp : Nat
  raim : Bool
deriving DecidableEq

/-- Modelled from the spec: the polymorphic message result; this
development needs only the Position Report variant. -/
inductive AisMessage where
  | positionReport (report : PositionReport)
deriving DecidableEq

/-- Modelled from the spec: 6-bit armoring value of one payload byte;
bytes 48-87 map to 0-39 and bytes 96-119 map to 40-63, anything else is
outside the alphabet. -/
def sixBitVal (b : Nat) : Option Nat :=
  if 48 ≤ b ∧ b ≤ 87 then some (b - 48)
  else if 96 ≤ b ∧ b ≤ 119 then some (b - 56)
  else none

/-- The `w` low bits of `v`, most significant first. -/
def natBits (v w : Nat) : List Bool :=
  (List.range w).map (fun i => v.testBit (w - 1 - i))

/-- Modelled from the spec: expand an armored payload into its bit
sequence, dropping the trailing fill bits; `none` on a byte outside the
6-bit alphabet. -/
def expandPayload (payload : List Nat) (fill : Nat) : Option (List Bool) :=
  match payload.mapM sixBitVal with
  | none => none
  | some vals =>
    let bits := (vals.map (natBits · 6)).flatten
    some (bits.take (bits.length - fill))

/-- Big-endian value of a bit list. -/
def bitsToNat (bs : List Bool) : Nat :=
  bs.foldl (fun a b => 2 * a + (if b then 1 else 0)) 0

/-- Unsigned field of width `w` at bit offset `off`. -/
def readUnsigned (bits : List Bool) (off w : Nat) : Nat :=
  bitsToNat ((bits.drop off).take w)

/-- Two's-complement signed field of width `w` at bit offset `off`. -/
def readSigned (bits : List Bool) (off w : Nat) : ℤ :=
  let v := readUnsigned bits off w
  if v < 2 ^ (w - 1) then (v : ℤ) else (v : ℤ) - 2 ^ w

/-- Modelled from the spec: the Position Report field decoder for the
standard 168-bit layout of message types 1-3.  MMSI is a 30-bit unsigned
at offset 8; navigation status a 4-bit code at 38; speed over ground a
10-bit unsigned at 50 scaled by 0.1 with sentinel 1023; longitude a
28-bit signed at 61 and latitude a 27-bit signed at 89, both scaled by
1/600000 with sentinels 181 and 91 degrees; course over ground a 12-bit
unsigned at 116 scaled by 0.1 with sentinel 3600; timestamp a 6-bit
unsigned at 137; RAIM the flag bit at 148. -/
def decodePositionReport (bits : List Bool) : PositionReport :=
  { message_type := readUnsigned bits 0 6
    mmsi := readUnsigned bits 8 30
    navigation_status := some (NavigationStatus.ofCode (readUnsigned bits 38 4))
    speed_over_ground :=
      let raw := readUnsigned bits 50 10
      if raw = 1023 then none else some ((intToF32 raw).divNat 10)
    longitude :=
      let raw := readSigned bits 61 28
      if raw = 108600000 then none else some ((intToF32 raw).divNat 600000)
    latitude :=
      let raw := readSigned bits 89 27
      if raw = 54600000 then none else some ((intToF32 raw).divNat 600000)
    course_over_ground :=
      let raw := readUnsigned bits 116 12
      if raw = 3600 then none else some ((intToF32 raw).divNat 10)
    timestamp := readUnsigned bits 137 6
    raim := readUnsigned bits 148 1 == 1 }

/-- Modelled from the spec: read the 6-bit type code and dispatch; types
1-3 decode to a Position Report, other recognized codes (up to 27) carry
no implemented decoder and yield no message, anything else is an
unrecognized-type error. -/
def decodeMessage (bits : List Bool) : Except String (Option AisMessage) :=
  if bits.length < 6 then .error "message too short"
  else
    let t := readUnsigned bits 0 6
    if t = 1 ∨ t = 2 ∨ t = 3 then
      if bits.length = 168 then .ok (some (.positionReport (decodePositionReport bits)))
      else .error "invalid position report length"
    else if 1 ≤ t ∧ t ≤ 27 then .ok none
    else .error "unrecognized message type"

/-- Modelled from the spec: one parsed sentence together with the decoded
message it carries (absent for recognized-but-unsupported types). -/
structure AisSentence where
  talker : List Nat
  num_fragments : Nat
  fragment_number : Nat
  message_id : List Nat
  channel : List Nat
  payload : List Nat
  fill_bit_count : Nat
  checksum : Nat
  message : Option AisMessage
deriving DecidableEq

/-- Modelled from the spec: the reassembly outcome returned per line. -/
inductive AisFragments where
  | incomplete
  | complete (sentence : AisSentence)
deriving DecidableEq

/-- Exactly two hex-digit bytes folded to a value. -/
def hexByte (bs : List Nat) : Option Nat :=
  match bs with
  | [a, b] =>
    match hexVal a, hexVal b with
    | some x, some y => some (16 * x + y)
    | _, _ => none
  | _ => none

/-- Modelled from the spec: `AisParser::parse` on a fresh parser, as used
by the one-shot `decode`.  The line must start with `!` or `$`; the body
up to the `*` is checksum-validated (fatal on mismatch in strict mode);
the comma-separated fields are talker (`AIVDM`/`AIVDO`), fragment count,
fragment index, sequential id, channel, armored payload and fill-bit
count with `1 ≤ index ≤ count` and fill at most 5.  A first fragment of a
multi-fragment sequence is buffered and reported `incomplete`; a final
fragment is expanded and dispatched. -/
def aisParse (line : List Nat) (strict : Bool) : Except String AisFragments :=
  match line with
  | [] => .error "empty line"
  | lead :: rest =>
    if lead ≠ 33 ∧ lead ≠ 36 then .error "invalid sentence start"
    else
      match splitSep 42 rest with
      | [body, cs] =>
        match hexByte cs with
        | none => .error "invalid checksum field"
        | some declared =>
          if xorFold body ≠ declared ∧ strict then .error "checksum mismatch"
          else
            match splitSep 44 body with
            | [talker, totalF, idxF, seqid, channel, payload, fillF] =>
              if talker ≠ strBytes "AIVDM" ∧ talker ≠ strBytes "AIVDO" then
                .error "unsupported sentence type"
              else
                match decDigitsVal totalF, decDigitsVal idxF, decDigitsVal fillF with
                | some total, some idx, some fill =>
                  if ¬(1 ≤ idx ∧ idx ≤ total) then .error "invalid fragment index"
                  else if 5 < fill then .error "invalid fill bit count"
                  else if idx < total then .ok .incomplete
                  else
                    match expandPayload payload fill with
                    | none => .error "invalid payload character"
                    | some bits =>
                      match decodeMessage bits with
                      | .error e => .error e
                      | .ok msg =>
                        .ok (.complete
                          { talker := talker, num_fragments := total, fragment_number := idx
                            message_id := seqid, channel := channel, payload := payload
                            fill_bit_count := fill, checksum := declared, message := msg })
                | _, _, _ => .error "invalid numeric field"
            | _ => .error "invalid sentence field count"
      | _ => .error "missing sentence checksum"

/-- Embeds `decode` from `src/decoders/utils.rs`: parse the line strictly
on a fresh parser; a complete sentence yields its message, a missing
message or an incomplete fragment is the "Incomplete message" error, and
parser errors propagate. -/
def decode (message : List Nat) : Except String AisMessage :=
  match aisParse message true with
  | .error e => .error e
  | .ok (.complete sentence) =>
    match sentence.message with
    | some m => .ok m
    | none => .error "Incomplete message"
  | .ok .incomplete => .error "Incomplete message"

/-- The single-fragment position-report line of the end-to-end scenario. -/
def c1line : List Nat :=
  strBytes "!AIVDM,1,1,,B,15NG6V0P01G?cFhE`R2IU?wn28R>,0*05"

/-- First fragment of the two-fragment test sequence from the repository. -/
def twoPartLine1 : List Nat :=
  strBytes "!AIVDM,2,1,1,B,53`soB8000010KSOW<0P4eDp4l6000000000000U0p<24t@P05H3S833CDP00000,0*78"

/-- The structured message carried by `c1line`, with its `f32` fields in
canonical dyadic form (0.1 kn, -122.404335 deg, 37.806946 deg, 245.2 deg
as nearest binary32 values). -/
def c1message : AisMessage :=
  .positionReport
    { message_type := 1, mmsi := 367380120
      navigation_status := some .underWayUsingEngine
      speed_over_ground := some ⟨13421773, -4⟩
      longitude := some ⟨-16043781, 6⟩
      latitude := some ⟨9910864, 5⟩
      course_over_ground := some ⟨16069427, 7⟩
      timestamp := 59, raim := true }

/-- The parsed sentence produced for `c1line`. -/
def c1sentence : AisSentence :=
  { talker := strBytes "AIVDM", num_fragments := 1, fragment_number := 1
    message_id := [], channel := strBytes "B"
    payload := strBytes "15NG6V0P01G?cFhE`R2IU?wn28R>", fill_bit_count := 0
    checksum := 5, message := some c1message }

/-- Checksum-field well-formedness as the specification words it: exactly
two hexadecimal characters. -/
def isTwoHexDigits (bs : List Nat) : Bool :=
  bs.length == 2 && bs.all (fun b => (hexVal b).isSome)

/-! ## Helper lemmas -/

theorem splitSep_ne_nil (sep : Nat) (l : List Nat) : splitSep sep l ≠ [] := by
  induction l with
  | nil => simp [splitSep]
  | cons b rest ih =>
    rw [splitSep]
    split
    · simp
    · rcases h : splitSep sep rest with _ | ⟨hd, tl⟩
      · exact absurd h ih
      · simp [h]

theorem length_splitSep (sep : Nat) (l : List Nat) :
    (splitSep sep l).length = l.count sep + 1 := by
  induction l with
  | nil => simp [splitSep]
  | cons b rest ih =>
    rw [splitSep]
    by_cases hb : b = sep
    · subst hb
      rw [if_pos rfl, List.count_cons_self]
      simp only [List.length_cons, ih]
    · rw [if_neg hb, List.count_cons_of_ne (Ne.symm hb)]
      rcases h : splitSep sep rest with _ | ⟨hd, tl⟩
      · exact absurd h (splitSep_ne_nil sep rest)
      · rw [h] at ih
        simp only [List.length_cons] at ih ⊢
        omega

theorem count_star_dropWhile (l : List Nat) :
    ((l.dropWhile (· == 92)).count 42) = l.count 42 := by
  induction l with
  | nil => rfl
  | cons b rest ih =>
    by_cases hb : b = 92
    · subst hb
      have hd : List.dropWhile (· == 92) (92 :: rest) = List.dropWhile (· == 92) rest := rfl
      rw [hd, List.count_cons_of_ne (by decide), ih]
    · have hbeq : (b == 92) = false := beq_eq_false_iff_ne.mpr hb
      have hd : List.dropWhile (· == 92) (b :: rest) = b :: rest := by
        simp only [List.dropWhile, hbeq]
      rw [hd]

theorem count_star_trim (l : List Nat) :
    (trimBackslashes l).count 42 = l.count 42 := by
  unfold trimBackslashes
  rw [List.count_reverse, count_star_dropWhile, List.count_reverse, count_star_dropWhile]

theorem parse_ok_isSome (bs : List Nat) (r : Option TagBlock)
    (h : TagBlock.parse bs = .ok r) : r.isSome = true := by
  unfold TagBlock.parse at h
  rcases hp : splitSep 42 (trimBackslashes bs) with _ | ⟨a, _ | ⟨b, _ | ⟨c, t⟩⟩⟩ <;>
    rw [hp] at h
  · exact absurd h (by simp)
  · exact absurd h (by simp)
  · by_cases hl : b.length = 2
    · rcases hu : u8FromStrRadix16 b with _ | v <;> simp [hl, hu] at h
      by_cases hx : xorFold a = v
      · rw [if_pos hx] at h
        cases h
        rfl
      · rw [if_neg hx] at h
        exact absurd h (by simp)
    · simp [hl] at h
  · exact absurd h (by simp)

/-! ## Claim theorems -/

/-- Claim C2: for every input line whose backslash-trimmed text splits on
`*` into exactly a key-value section and a valid two-hex-digit checksum
field, `TagBlock::parse` returns a checksum-mismatch error if and only if
the XOR-fold of the key-value section differs from the declared checksum
byte. -/
theorem tagBlock_checksum_mismatch_iff (bs kv cs : List Nat) (v : Nat)
    (hsplit : splitSep 42 (trimBackslashes bs) = [kv, cs])
    (hlen : cs.length = 2)
    (hv : u8FromStrRadix16 cs = some v) :
    isChecksumMismatch (TagBlock.parse bs) = true ↔ xorFold kv ≠ v := by
  unfold TagBlock.parse
  rw [hsplit]
  by_cases hx : xorFold kv = v
  · simp [hlen, hv, hx, isChecksumMismatch]
  · simp [hlen, hv, hx, isChecksumMismatch]

/-- Witness for C2 at the literal tag block from the specification:
`\s:1234567,c:1625140800*34\` splits into the key-value section and the
checksum field `34` (value 0x34), and is rejected with a
checksum-mismatch error. -/
theorem tagBlock_checksum_mismatch_iff_witness :
    splitSep 42 (trimBackslashes (strBytes "\\s:1234567,c:1625140800*34\\"))
        = [strBytes "s:1234567,c:1625140800", strBytes "34"] ∧
    (strBytes "34").length = 2 ∧
    u8FromStrRadix16 (strBytes "34") = some 52 ∧
    isChecksumMismatch (TagBlock.parse (strBytes "\\s:1234567,c:1625140800*34\\")) = true :=
  ⟨by decide, by decide, by decide,
    (tagBlock_checksum_mismatch_iff (strBytes "\\s:1234567,c:1625140800*34\\")
        (strBytes "s:1234567,c:1625140800") (strBytes "34") 52
        (by decide) (by decide) (by decide)).mpr (by decide)⟩

/-- Claim C3 (code bug): on the all-fields tag block
`\s:2573135,c:1671620143,d:FooBar,n:123,r:456,t:HelloWorld!*03\` the code
computes XOR-fold 0x36 over the key-value section, which differs from
the declared 0x03, so `TagBlock::parse` returns a checksum-mismatch
error instead of the successful six-field parse that the specification
and the repository's own test assert. -/
theorem tagBlock_allFields_rejected :
    TagBlock.parse
        (strBytes "\\s:2573135,c:1671620143,d:FooBar,n:123,r:456,t:HelloWorld!*03\\")
      = .error (.checksumMismatch 0x36 0x03) := by decide

/-- Claim C6 (amended): `TagBlock::parse` never returns a successful
`None`; every successful result carries a parsed `TagBlock`. -/
theorem tagBlock_parse_ok_isSome (bs : List Nat) (r : Option TagBlock)
    (h : TagBlock.parse bs = .ok r) : r.isSome = true :=
  parse_ok_isSome bs r h

/-- Witness for the amended C6: the tag block `s:AB*4A` parses
successfully, and the theorem yields that the carried option is `some`. -/
theorem tagBlock_parse_ok_isSome_witness :
    (some { receiver_timestamp := none, destination_station := none, line_count := none
            relative_time := none, source_station := some (strBytes "AB"), text := none
            checksum := 74 } : Option TagBlock).isSome = true :=
  tagBlock_parse_ok_isSome (strBytes "s:AB*4A") _ (by decide)

/-- Counterexample to C6 as stated: there is no input line at all on
which `TagBlock::parse` returns a successful `None`. -/
theorem tagBlock_parse_never_none : ¬ ∃ bs : List Nat, TagBlock.parse bs = .ok none := by
  rintro ⟨bs, h⟩
  simpa using parse_ok_isSome bs none h

/-- Claim C7: an input line containing no `*` at all, or more than one,
makes `TagBlock::parse` fail with the format error naming the missing
checksum. -/
theorem tagBlock_parse_star_count (bs : List Nat) (h : bs.count 42 ≠ 1) :
    TagBlock.parse bs = .error .invalidFormat := by
  have hlen : (splitSep 42 (trimBackslashes bs)).length = bs.count 42 + 1 := by
    rw [length_splitSep, count_star_trim]
  unfold TagBlock.parse
  rcases hp : splitSep 42 (trimBackslashes bs) with _ | ⟨a, _ | ⟨b, _ | ⟨c, t⟩⟩⟩
  · rfl
  · rfl
  · rw [hp] at hlen
    simp only [List.length_cons, List.length_nil] at hlen
    omega
  · rfl

/-- Witness for C7 at the literal input `invalid_tag_block_format`,
which contains no `*`. -/
theorem tagBlock_parse_star_count_witness :
    (strBytes "invalid_tag_block_format").count 42 ≠ 1 ∧
    TagBlock.parse (strBytes "invalid_tag_block_format") = .error .invalidFormat :=
  ⟨by decide, tagBlock_parse_star_count (strBytes "invalid_tag_block_format") (by decide)⟩

/-- Claim C8 (amended): with exactly one `*`, `TagBlock::parse` fails
with the invalid-checksum-format error when the text after the `*` does
not have length exactly 2 or is rejected by Rust's
`u8::from_str_radix(_, 16)` — never reaching checksum comparison or
key-value parsing; `from_str_radix` however accepts not only two hex
digits but also a `+` followed by one hex digit. -/
theorem tagBlock_bad_checksum_field (bs kv cs : List Nat)
    (hsplit : splitSep 42 (trimBackslashes bs) = [kv, cs])
    (hbad : cs.length ≠ 2 ∨ u8FromStrRadix16 cs = none) :
    TagBlock.parse bs = .error .invalidChecksumFormat := by
  unfold TagBlock.parse
  rw [hsplit]
  rcases hbad with hl | hn
  · simp [hl]
  · by_cases hl : cs.length = 2
    · simp [hl, hn]
    · simp [hl]

/-- Witness for the amended C8: `ab*XYZ` has a three-character checksum
field and fails with the invalid-checksum-format error. -/
theorem tagBlock_bad_checksum_field_witness :
    splitSep 42 (trimBackslashes (strBytes "ab*XYZ")) = [strBytes "ab", strBytes "XYZ"] ∧
    TagBlock.parse (strBytes "ab*XYZ") = .error .invalidChecksumFormat :=
  ⟨by decide,
    tagBlock_bad_checksum_field (strBytes "ab*XYZ") (strBytes "ab") (strBytes "XYZ")
      (by decide) (Or.inl (by decide))⟩

/-- Counterexample to C8 as stated: the input `03*+3` has a checksum
field `+3` that is not two hexadecimal characters, yet `TagBlock::parse`
does not fail with a format error — `u8::from_str_radix` accepts the
leading `+`, the checksum comparison runs (0x03 matches the XOR-fold of
`03`) and the parse succeeds. -/
theorem tagBlock_bad_checksum_field_counterexample :
    isTwoHexDigits (strBytes "+3") = false ∧
    TagBlock.parse (strBytes "03*+3") = .ok (some (initTagBlock 3)) :=
  ⟨by decide, by decide⟩

/-- Claim C9: in the key-value loop of a tag block that passed format and
checksum validation, a token shorter than 3 bytes, or one whose two-byte
key prefix is not among `c: d: n: r: s: t:`, is skipped and leaves every
field unchanged; and under those validations the whole parse succeeds
with the fold of the key-value tokens, never an error. -/
theorem tagBlock_skip_tokens :
    (∀ (tb : TagBlock) (kv : List Nat),
        kv.length < 3 ∨ kv.take 2 ∉ recognizedTagKeys → processKV tb kv = tb) ∧
    (∀ (bs kv cs : List Nat) (v : Nat),
        splitSep 42 (trimBackslashes bs) = [kv, cs] → cs.length = 2 →
        u8FromStrRadix16 cs = some v → xorFold kv = v →
        TagBlock.parse bs = .ok (some ((splitSep 44 kv).foldl processKV (initTagBlock v)))) := by
  constructor
  · intro tb kv h
    by_cases hlen : kv.length < 3
    · simp [processKV, hlen]
    · rcases h with h | hkey
      · exact absurd h hlen
      · simp only [recognizedTagKeys, List.mem_cons, List.not_mem_nil, or_false, not_or] at hkey
        obtain ⟨h1, h2, h3, h4, h5, h6⟩ := hkey
        simp [processKV, hlen, h1, h2, h3, h4, h5, h6]
  · intro bs kv cs v hsplit hlen hv hx
    unfold TagBlock.parse
    rw [hsplit]
    simp [hlen, hv, hx]

/-- Witness for C9: a two-byte token and an unrecognized-key token each
leave a concrete tag block unchanged, and the tag block `s:AB*4A` parses
to the fold of its tokens. -/
theorem tagBlock_skip_tokens_witness :
    processKV { initTagBlock 0 with receiver_timestamp := some 7 } (strBytes "ab")
        = { initTagBlock 0 with receiver_timestamp := some 7 } ∧
    processKV { initTagBlock 0 with receiver_timestamp := some 7 } (strBytes "q:99")
        = { initTagBlock 0 with receiver_timestamp := some 7 } ∧
    TagBlock.parse (strBytes "s:AB*4A")
        = .ok (some ((splitSep 44 (strBytes "s:AB")).foldl processKV (initTagBlock 74))) :=
  ⟨tagBlock_skip_tokens.1 _ (strBytes "ab") (Or.inl (by decide)),
   tagBlock_skip_tokens.1 _ (strBytes "q:99") (Or.inr (by decide)),
   tagBlock_skip_tokens.2 (strBytes "s:AB*4A") (strBytes "s:AB") (strBytes "4A") 74
     (by decide) (by decide) (by decide) (by decide)⟩

/-- Claim C10: a `c:`, `n:` or `r:` token whose value does not parse as
the corresponding unsigned integer leaves that numeric field absent
rather than erroring, and the whole parse still succeeds — shown on the
literal block `\c:notanumber*4E\`. -/
theorem tagBlock_unparsable_numeric :
    (∀ (tb : TagBlock) (v : List Nat), v ≠ [] → parseUInt u64Max v = none →
        processKV tb (99 :: 58 :: v) = { tb with receiver_timestamp := none }) ∧
    (∀ (tb : TagBlock) (v : List Nat), v ≠ [] → parseUInt u32Max v = none →
        processKV tb (110 :: 58 :: v) = { tb with line_count := none } ∧
        processKV tb (114 :: 58 :: v) = { tb with relative_time := none }) ∧
    TagBlock.parse (strBytes "\\c:notanumber*4E\\") = .ok (some (initTagBlock 78)) := by
  refine ⟨?_, ?_, by decide⟩
  · intro tb v hv h
    have hlen : ¬ v.length + 1 + 1 < 3 := by
      have := List.length_pos.mpr hv
      omega
    simp [processKV, List.length_cons, hlen, h]
  · intro tb v hv h
    have hlen : ¬ v.length + 1 + 1 < 3 := by
      have := List.length_pos.mpr hv
      omega
    constructor
    · simp [processKV, List.length_cons, hlen, h]
    · simp [processKV, List.length_cons, hlen, h]

/-- Witness for C10: `notanumber` parses as no unsigned integer, and the
corresponding tokens clear the `c:`, `n:` and `r:` fields. -/
theorem tagBlock_unparsable_numeric_witness :
    processKV (initTagBlock 0) (99 :: 58 :: strBytes "notanumber")
        = { initTagBlock 0 with receiver_timestamp := none } ∧
    processKV (initTagBlock 0) (110 :: 58 :: strBytes "notanumber")
        = { initTagBlock 0 with line_count := none } ∧
    processKV (initTagBlock 0) (114 :: 58 :: strBytes "notanumber")
        = { initTagBlock 0 with relative_time := none } :=
  ⟨tagBlock_unparsable_numeric.1 _ (strBytes "notanumber") (by decide) (by decide),
   (tagBlock_unparsable_numeric.2.1 _ (strBytes "notanumber") (by decide) (by decide)).1,
   (tagBlock_unparsable_numeric.2.1 _ (strBytes "notanumber") (by decide) (by decide)).2⟩

set_option maxRecDepth 100000 in
/-- Claim C1: decoding `!AIVDM,1,1,,B,15NG6V0P01G?cFhE` followed by
`` ` `` and `R2IU?wn28R>,0*05` succeeds and yields a Position Report with
message type 1, MMSI 367380120, navigation status under way using engine,
speed over ground 0.1 knots, longitude -122.404335 degrees, latitude
37.806946 degrees, course over ground 245.2 degrees, timestamp 59 and
RAIM true — the scaled fields being the nearest binary32 values of those
decimal literals, exactly as Rust `f32` arithmetic produces them. -/
theorem decode_c1line :
    decode c1line = .ok (.positionReport
      { message_type := 1, mmsi := 367380120
        navigation_status := some .underWayUsingEngine
        speed_over_ground := some (toF32Frac 1 10)
        longitude := some (toF32Frac (-122404335) 1000000)
        latitude := some (toF32Frac 37806946 1000000)
        course_over_ground := some (toF32Frac 2452 10)
        timestamp := 59, raim := true }) := by decide

/-- Claim C4: whenever parsing the input line yields an incomplete
fragment rather than a finished message, `decode` fails with the
explicit "Incomplete message" error and never returns a message. -/
theorem decode_incomplete_fragment (line : List Nat)
    (h : aisParse line true = .ok .incomplete) :
    decode line = .error "Incomplete message" := by
  unfold decode
  rw [h]

/-- Witness for C4: the first fragment of the repository's two-fragment
sequence parses to an incomplete outcome, and `decode` rejects it with
the incomplete-message error. -/
theorem decode_incomplete_fragment_witness :
    decode twoPartLine1 = .error "Incomplete message" :=
  decode_incomplete_fragment twoPartLine1 (by decide)

/-- Claim C5: on any line that the parser completes, `decode` returns
exactly the message carried by the `Complete` outcome. -/
theorem decode_refines_parse (line : List Nat) (st : AisSentence) (m : AisMessage)
    (h1 : aisParse line true = .ok (.complete st)) (h2 : st.message = some m) :
    decode line = .ok m := by
  unfold decode
  rw [h1]
  simp [h2]

set_option maxRecDepth 100000 in
/-- Witness for C5 at the single-fragment position-report line: the
parser completes it with `c1sentence`, whose message `decode` returns. -/
theorem decode_refines_parse_witness :
    decode c1line = .ok c1message :=
  decode_refines_parse c1line c1sentence c1message (by decide) (by decide)

end Ais
